import Mathlib

/-!
Shallow embedding of the MicrosoftGraphClient from tap_ms_teams/client.py:
URL construction (build_url over a model of urllib.parse), authentication
(login with its refresh timer), single-request execution with status-code
classification (make_request with its backoff retry wrapper), and
cursor-based pagination (get_all_resources).
-/

namespace TapMsTeams

/-- JSON values, as produced by response.json() and consumed via dict.get. -/
inductive Json where
  | null : Json
  | str : String → Json
  | num : Int → Json
  | arr : List Json → Json
  | obj : List (String × Json) → Json

/-- Python dict.get with default None: the first field with the given key,
none when the key is absent (lookups on non-dicts are not exercised by the
client's code paths modelled here). -/
def Json.get : Json → String → Option Json
  | .obj fields, key => (fields.find? (fun kv => kv.1 == key)).map (fun kv => kv.2)
  | _, _ => none

/-- Python truthiness of a JSON value: None, empty string, zero, empty list
and empty dict are falsy. -/
def Json.isTruthy : Json → Bool
  | .null => false
  | .str s => !s.isEmpty
  | .num n => !(n == 0)
  | .arr xs => !xs.isEmpty
  | .obj fields => !fields.isEmpty

/-- A parsed URL in the shape of urllib.parse.ParseResult: the six fields
(scheme, netloc, path, params, query, fragment) that build_url turns into a
list and indexes. -/
structure ParseResult where
  scheme : String
  netloc : String
  path : String
  params : String
  query : String
  fragment : String
deriving Repr, DecidableEq

/-- Split a character list at the first occurrence of a character, dropping
the separator; none when the character does not occur. -/
def splitFirst (c : Char) : List Char → Option (List Char × List Char)
  | [] => none
  | x :: xs =>
    if x = c then some ([], xs)
    else
      match splitFirst c xs with
      | some (a, b) => some (x :: a, b)
      | none => none

/-- Split a character list at the last occurrence of a character, dropping
the separator; none when the character does not occur. -/
def splitLast (c : Char) (l : List Char) : Option (List Char × List Char) :=
  match splitFirst c l.reverse with
  | some (a, b) => some (b.reverse, a.reverse)
  | none => none

/-- Characters allowed in a URL scheme, per urllib.parse.scheme_chars:
ASCII letters, digits, and the three marks plus, minus, dot. -/
def schemeChar (c : Char) : Bool :=
  c.isAlphanum || c == '+' || c == '-' || c == '.'

/-- Model of urllib.parse.urlsplit: peel off the scheme (when the text
before the first colon is a valid scheme starting with a letter), the
netloc after a leading double slash (up to the next slash, question mark or
hash), then the fragment after the first hash and the query after the first
question mark.  The params field is left empty; urlparse fills it. -/
def urlsplit (url : String) : ParseResult :=
  let cs := url.toList
  let schemeRest : List Char × List Char :=
    match splitFirst ':' cs with
    | some (before, after) =>
      match before with
      | [] => ([], cs)
      | c0 :: _ =>
        if c0.isAlpha && before.all schemeChar then (before.map Char.toLower, after)
        else ([], cs)
    | none => ([], cs)
  let netlocRest : List Char × List Char :=
    match schemeRest.2 with
    | '/' :: '/' :: r2 => r2.span (fun c => !(c == '/') && !(c == '?') && !(c == '#'))
    | r => ([], r)
  let restFragment : List Char × List Char :=
    match splitFirst '#' netlocRest.2 with
    | some (a, b) => (a, b)
    | none => (netlocRest.2, [])
  let pathQuery : List Char × List Char :=
    match splitFirst '?' restFragment.1 with
    | some (a, b) => (a, b)
    | none => (restFragment.1, [])
  ⟨String.mk schemeRest.1, String.mk netlocRest.1, String.mk pathQuery.1,
    "", String.mk pathQuery.2, String.mk restFragment.2⟩

/-- Model of urllib.parse.urlparse: urlsplit, then split a params segment
off the path when the last path segment contains a semicolon. -/
def urlparse (url : String) : ParseResult :=
  let r := urlsplit url
  let cs := r.path.toList
  if cs.contains ';' then
    match splitLast '/' cs with
    | some (before, after) =>
      match splitFirst ';' after with
      | some (p1, p2) =>
        { r with path := String.mk (before ++ '/' :: p1), params := String.mk p2 }
      | none => r
    | none =>
      match splitFirst ';' cs with
      | some (p1, p2) => { r with path := String.mk p1, params := String.mk p2 }
      | none => r
  else r

/-- Whether a string starts with one slash. -/
def startsSlash (s : String) : Bool :=
  match s.toList with
  | '/' :: _ => true
  | _ => false

/-- Whether a string starts with two slashes. -/
def startsTwoSlash (s : String) : Bool :=
  match s.toList with
  | '/' :: '/' :: _ => true
  | _ => false

/-- Model of urllib.parse.urlunsplit: reattach netloc (prefixing the path
with a slash when needed), scheme, query and fragment. -/
def urlunsplit (scheme netloc url query fragment : String) : String :=
  let url1 :=
    if netloc ≠ "" || startsTwoSlash url then
      let u := if url ≠ "" && !startsSlash url then "/" ++ url else url
      "//" ++ netloc ++ u
    else url
  let url2 := if scheme ≠ "" then scheme ++ ":" ++ url1 else url1
  let url3 := if query ≠ "" then url2 ++ "?" ++ query else url2
  if fragment ≠ "" then url3 ++ "#" ++ fragment else url3

/-- Model of urllib.parse.urlunparse: reattach the params segment to the
path with a semicolon, then urlunsplit. -/
def urlunparse (p : ParseResult) : String :=
  let u := if p.params ≠ "" then p.path ++ ";" ++ p.params else p.path
  urlunsplit p.scheme p.netloc u p.query p.fragment

/-- Characters that urllib.parse.quote never escapes: ASCII letters,
digits, underscore, dot, minus, tilde. -/
def alwaysSafe (c : Char) : Bool :=
  c.isAlphanum || c == '_' || c == '.' || c == '-' || c == '~'

/-- Uppercase hexadecimal digit for a value below 16. -/
def hexUpper (n : Nat) : Char :=
  if n < 10 then Char.ofNat (48 + n) else Char.ofNat (55 + n)

/-- Percent-encoding of one byte, uppercase hex. -/
def percentByte (b : Nat) : List Char :=
  ['%', hexUpper (b / 16), hexUpper (b % 16)]

/-- UTF-8 encoding of one character as a byte list. -/
def utf8bytes (c : Char) : List Nat :=
  let n := c.toNat
  if n < 128 then [n]
  else if n < 2048 then [192 + n / 64, 128 + n % 64]
  else if n < 65536 then [224 + n / 4096, 128 + (n / 64) % 64, 128 + n % 64]
  else [240 + n / 262144, 128 + (n / 4096) % 64, 128 + (n / 64) % 64, 128 + n % 64]

/-- Model of urllib.parse.quote_plus with empty safe set: keep the always
safe characters, turn spaces into plus signs, percent-encode everything
else byte by byte. -/
def quote_plus (s : String) : String :=
  String.mk ((s.toList.map (fun c =>
    if alwaysSafe c then [c]
    else if c == ' ' then ['+']
    else ((utf8bytes c).map percentByte).flatten)).flatten)

/-- Model of urllib.parse.urlencode on an ordered association list (a
Python dict iterates its keys in insertion order): quote_plus each key and
value, join pairs with an equals sign and entries with ampersands. -/
def urlencode (args : List (String × String)) : String :=
  String.intercalate "&" (args.map (fun kv => quote_plus kv.1 ++ "=" ++ quote_plus kv.2))

/-- MicrosoftGraphClient.build_url: parse the base URL, overwrite index 2
(the path) with version slash path and index 4 (the query) with the encoded
argument dict, and reassemble.  The params (index 3) and fragment (index 5)
of the base URL are left as parsed. -/
def build_url (baseurl version path : String) (args_dict : List (String × String)) : String :=
  let url_parts := urlparse baseurl
  urlunparse { url_parts with path := version ++ "/" ++ path, query := urlencode args_dict }

/-- Module constant SCOPE. -/
def SCOPE : String := "https://graph.microsoft.com/.default"

/-- Module constant BASE_GRAPH_URL. -/
def BASE_GRAPH_URL : String := "https://graph.microsoft.com"

/-- Module constant TOKEN_EXPIRATION_PERIOD (seconds before re-login). -/
def TOKEN_EXPIRATION_PERIOD : Nat := 3599

/-- Module constant TOP_API_PARAM_DEFAULT. -/
def TOP_API_PARAM_DEFAULT : Nat := 500

/-- Class constant MicrosoftGraphClient.MAX_TRIES, passed to backoff. -/
def MAX_TRIES : Nat := 5

/-- The GraphVersion enum values. -/
inductive GraphVersion where
  | BETA : GraphVersion
  | V1 : GraphVersion
deriving Repr, DecidableEq

/-- The string value of a GraphVersion member. -/
def GraphVersion.value : GraphVersion → String
  | .BETA => "beta"
  | .V1 => "v1.0"

/-- Python str of an optional string, as produced when formatting it into
a template (None prints as the word None). -/
def pyOptStr : Option String → String
  | some s => s
  | none => "None"

/-- Module constant TOKEN_URL with the tenant id formatted in. -/
def TOKEN_URL (tenant_id : Option String) : String :=
  "https://login.microsoftonline.com/" ++ pyOptStr tenant_id ++ "/oauth2/v2.0/token"

/-- Python format of the stored access token into the Bearer header: the
string itself for a str token, the word None for an absent or null one.
Non-string non-null tokens never arise on the modelled paths. -/
def tokenText : Option Json → String
  | none => "None"
  | some .null => "None"
  | some (.str s) => s
  | some (.num n) => toString n
  | some (.arr _) => "<list>"
  | some (.obj _) => "<dict>"

/-- The configuration mapping handed to the client constructor. -/
structure Config where
  client_id : Option String
  client_secret : Option String
  tenant_id : Option String
  user_agent : Option String
deriving Repr, DecidableEq

/-- The mutable attributes of a MicrosoftGraphClient instance: the held
config, the shared access token (any JSON value or None, as stored by
login), the credential attributes login copies out of the config, and the
delay of the armed refresh timer (none before the first login). -/
structure ClientState where
  config : Config
  access_token : Option Json
  client_id : Option String
  client_secret : Option String
  tenant_id : Option String
  login_timer : Option Nat

/-- The state of a freshly constructed client. -/
def initState (config : Config) : ClientState :=
  ⟨config, none, none, none, none, none⟩

/-- One HTTP request as handed to the requests session: the method, the
URL, the headers the code passed (POST passes none), and the form body. -/
structure SentRequest where
  method : String
  url : String
  headers : List (String × String)
  data : List (String × Option String)
deriving Repr, DecidableEq

/-- An HTTP response: status code, raw text, and JSON-decoded body. -/
structure HttpResponse where
  status_code : Nat
  text : String
  body : Json

/-- What the network does with one request: deliver a response, or fail at
the connection level (the requests session then raises its own
requests.exceptions.ConnectionError). -/
inductive NetResult where
  | resp : HttpResponse → NetResult
  | connFail : NetResult

/-- The test network: a response for each method and URL. -/
def Net : Type := String → String → NetResult

/-- The exceptions make_request and the pagination loop can raise.
connectionError stands for requests.exceptions.ConnectionError, the
exception the session raises on a connection-level failure; it subclasses
RequestException (an IOError) and is not a subclass of Python's builtin
ConnectionError.  builtinConnectionError stands for that distinct builtin
class, the one actually named in the backoff decorator's exception tuple
(client.py only imports requests, never requests.exceptions); nothing in
the client ever raises it. -/
inductive ReqError where
  | server5xx : ReqError
  | rateLimit : ReqError
  | connectionError : ReqError
  | builtinConnectionError : ReqError
  | runtimeError : String → ReqError
  | unsupportedMethod : ReqError
  | typeError : ReqError
  | recursionLimit : ReqError
deriving Repr, DecidableEq

/-- The exceptions the backoff decorator retries: isinstance against
exactly the tuple Server5xxError, ConnectionError, Server42xRateLimitError,
where ConnectionError resolves to the builtin class.  The connection
failures the session actually raises (requests.exceptions.ConnectionError)
are not instances of the builtin ConnectionError, so they are not
retryable. -/
def ReqError.retryable : ReqError → Bool
  | .server5xx => true
  | .rateLimit => true
  | .builtinConnectionError => true
  | _ => false

/-- The outcome of running an operation: its result or raised exception,
the client state afterwards, and the requests that went on the wire. -/
def Run (α : Type) : Type := Except ReqError α × ClientState × List SentRequest

/-- The headers make_request constructs: the Authorization bearer header,
plus User-Agent when the config holds a truthy user_agent. -/
def requestHeaders (st : ClientState) : List (String × String) :=
  let base := [("Authorization", "Bearer " ++ tokenText st.access_token)]
  match st.config.user_agent with
  | some ua => if ua.isEmpty then base else base ++ [("User-Agent", ua)]
  | none => base

/-- The status-code classification at the tail of make_request: on 401 run
login (its exception propagates; afterwards control falls through to the
success-list check, so 401 still raises RuntimeError with the response
text); on 429 raise the rate-limit error; on 500 and above raise the
server error; any other status outside 200, 201, 202 raises RuntimeError
with the response text; otherwise return the JSON body.  The returned
trace holds only the requests a nested login sent. -/
def classifyResponse (loginFn : ClientState → Run Unit) (response : HttpResponse)
    (st : ClientState) : Run Json :=
  if response.status_code = 401 then
    match loginFn st with
    | (.error e, st2, tr2) => (.error e, st2, tr2)
    | (.ok _, st2, tr2) => (.error (.runtimeError response.text), st2, tr2)
  else if response.status_code = 429 then (.error .rateLimit, st, [])
  else if response.status_code ≥ 500 then (.error .server5xx, st, [])
  else if response.status_code ∈ ([200, 201, 202] : List Nat) then (.ok response.body, st, [])
  else (.error (.runtimeError response.text), st, [])

/-- One undecorated execution of make_request: build headers, send a GET
with those headers or a POST with only the form body, raise the
unsupported-method error for anything else before touching the network,
then classify the response. -/
def make_request_body (loginFn : ClientState → Run Unit) (net : Net) (method url : String)
    (data : List (String × Option String)) (st : ClientState) : Run Json :=
  let headers := requestHeaders st
  if method = "GET" then
    let req : SentRequest := ⟨"GET", url, headers, []⟩
    match net "GET" url with
    | .connFail => (.error .connectionError, st, [req])
    | .resp response =>
      let c := classifyResponse loginFn response st
      (c.1, c.2.1, req :: c.2.2)
  else if method = "POST" then
    let req : SentRequest := ⟨"POST", url, [], data⟩
    match net "POST" url with
    | .connFail => (.error .connectionError, st, [req])
    | .resp response =>
      let c := classifyResponse loginFn response st
      (c.1, c.2.1, req :: c.2.2)
  else (.error .unsupportedMethod, st, [])

/-- The backoff.on_exception decorator: run the body; on a retryable
exception with attempts remaining run it again from the state it left
behind, otherwise re-raise.  tries counts the attempts still allowed
(max_tries total). -/
def backoff_retry : Nat → (ClientState → Run Json) → ClientState → Run Json
  | 0, _, st => (.error .connectionError, st, [])
  | tries + 1, body, st =>
    match body st with
    | (.ok v, st2, tr) => (.ok v, st2, tr)
    | (.error e, st2, tr) =>
      if e.retryable && decide (0 < tries) then
        let rest := backoff_retry tries body st2
        (rest.1, rest.2.1, tr ++ rest.2.2)
      else (.error e, st2, tr)

/-- The delay generator backoff.expo: factor times base to the attempt
number (the decorator passes factor 2, base defaults to 2). -/
def backoff_expo (base factor n : Nat) : Nat :=
  factor * base ^ n

/-- The first statements of login: copy the credentials out of the held
config into the instance attributes. -/
def login_prepare (st : ClientState) : ClientState :=
  { st with client_id := st.config.client_id,
            client_secret := st.config.client_secret,
            tenant_id := st.config.tenant_id }

/-- The form body login posts to the token endpoint. -/
def login_data (st : ClientState) : List (String × Option String) :=
  [("grant_type", some "client_credentials"),
   ("client_id", st.client_id),
   ("client_secret", st.client_secret),
   ("scope", some SCOPE)]

/-- MicrosoftGraphClient.login: copy credentials from config, POST the
client-credentials body to the token endpoint through the decorated
make_request, store the access_token field of the result, and in a finally
block arm the refresh timer with the fixed expiration period whether the
request succeeded or raised.  The fuel bounds the mutual recursion between
login and the 401 handler (Python's call stack). -/
def login (net : Net) (fuel : Nat) (st : ClientState) : Run Unit :=
  match fuel with
  | 0 => (.error .recursionLimit, st, [])
  | f + 1 =>
    let st1 := login_prepare st
    let r := backoff_retry MAX_TRIES
      (make_request_body (fun s => login net f s) net "POST" (TOKEN_URL st1.tenant_id)
        (login_data st1)) st1
    match r with
    | (.ok result, st2, tr) =>
      (.ok (), { st2 with access_token := result.get "access_token",
                          login_timer := some TOKEN_EXPIRATION_PERIOD }, tr)
    | (.error e, st2, tr) =>
      (.error e, { st2 with login_timer := some TOKEN_EXPIRATION_PERIOD }, tr)

/-- The decorated make_request: the body wrapped in backoff_retry with
MAX_TRIES attempts.  The params argument of the Python signature is only
logged, never sent, so it does not appear here. -/
def make_request (net : Net) (fuel : Nat) (method url : String)
    (data : List (String × Option String)) (st : ClientState) : Run Json :=
  backoff_retry MAX_TRIES (make_request_body (fun s => login net fuel s) net method url data) st

/-- Python list.extend on the page's value container: extends with the
elements of a list, the characters of a string or the keys of a dict, and
raises TypeError on None (an absent value key) and other non-iterables. -/
def extendList (acc : List Json) : Option Json → Except ReqError (List Json)
  | some (.arr xs) => .ok (acc ++ xs)
  | some (.str s) => .ok (acc ++ s.toList.map (fun c => Json.str (String.mk [c])))
  | some (.obj fields) => .ok (acc ++ fields.map (fun kv => Json.str kv.1))
  | _ => .error .typeError

/-- The cursor value used verbatim as the next request URL; the server
contract makes it a string, other JSON shapes are not exercised. -/
def Json.asUrl : Json → String
  | .str s => s
  | _ => ""

/-- The while loop of get_all_resources: while the cursor value is truthy,
GET it through the decorated make_request; a raised exception propagates;
a truthy body yields the next cursor (dict.get with default None) and
extends the accumulator with the value container (TypeError propagates); a
falsy body clears the cursor so the loop returns the accumulator.  The
fuel bounds the number of loop iterations. -/
def get_all_loop (net : Net) (mrFuel : Nat) :
    Nat → Option Json → List Json → ClientState → Run (List Json)
  | 0, _, _, st => (.error .recursionLimit, st, [])
  | pf + 1, next_url, acc, st =>
    match next_url with
    | none => (.ok acc, st, [])
    | some u =>
      if u.isTruthy then
        match make_request net mrFuel "GET" u.asUrl [] st with
        | (.error e, st2, tr) => (.error e, st2, tr)
        | (.ok body, st2, tr) =>
          if body.isTruthy then
            match extendList acc (body.get "value") with
            | .error e => (.error e, st2, tr)
            | .ok acc2 =>
              let rest := get_all_loop net mrFuel pf (body.get "@odata.nextLink") acc2 st2
              (rest.1, rest.2.1, tr ++ rest.2.2)
          else (.ok acc, st2, tr)
      else (.ok acc, st, [])

/-- Python truthiness of an optional string hint. -/
def optTruthy : Option String → Bool
  | some s => !s.isEmpty
  | none => false

/-- MicrosoftGraphClient.get_all_resources: build the args dict from the
truthy hints in insertion order, build the first URL against the fixed
graph base, and run the pagination loop from it.  The paging hints are
modelled as strings (urlencode applies str to the values either way). -/
def get_all_resources (net : Net) (mrFuel pageFuel : Nat) (version endpoint : String)
    (top orderby filter_param : Option String) (st : ClientState) : Run (List Json) :=
  let args : List (String × String) :=
    (if optTruthy top then [("$top", pyOptStr top)] else []) ++
    (if optTruthy orderby then [("$orderby", pyOptStr orderby)] else []) ++
    (if optTruthy filter_param then [("$filter", pyOptStr filter_param)] else [])
  let next_url := build_url BASE_GRAPH_URL version endpoint args
  get_all_loop net mrFuel pageFuel (some (.str next_url)) [] st

/-- Lookup of a header value by name in a header list. -/
def lookupHeader (hs : List (String × String)) (k : String) : Option String :=
  (hs.find? (fun kv => kv.1 == k)).map (fun kv => kv.2)

/-- The headers make_request builds always lead with the bearer token. -/
theorem lookupHeader_auth (st : ClientState) :
    lookupHeader (requestHeaders st) "Authorization"
      = some ("Bearer " ++ tokenText st.access_token) := by
  unfold lookupHeader requestHeaders
  cases st.config.user_agent with
  | none => simp
  | some ua =>
    by_cases hu : ua.isEmpty
    · simp [hu]
    · simp [hu]

/-- A nonempty string is a truthy JSON value. -/
theorem str_isTruthy (u : String) (hu : u ≠ "") : (Json.str u).isTruthy = true := by
  have : u.isEmpty = false := by
    cases he : u.isEmpty
    · rfl
    · exact absurd ((String.isEmpty_iff u).mp he) hu
  simp [Json.isTruthy, this]

/-- A body run that succeeds makes the retry wrapper return at once. -/
theorem backoff_retry_ok (t : Nat) (body : ClientState → Run Json) (st : ClientState)
    (v : Json) (st2 : ClientState) (tr : List SentRequest)
    (h : body st = (.ok v, st2, tr)) :
    backoff_retry (t + 1) body st = (.ok v, st2, tr) := by
  simp [backoff_retry, h]

/-- A body run that raises a non-retryable exception escapes the retry
wrapper immediately, with no further attempt. -/
theorem backoff_retry_fatal (t : Nat) (body : ClientState → Run Json) (st : ClientState)
    (e : ReqError) (st2 : ClientState) (tr : List SentRequest)
    (h : body st = (.error e, st2, tr)) (hr : e.retryable = false) :
    backoff_retry (t + 1) body st = (.error e, st2, tr) := by
  simp [backoff_retry, h, hr]

/-- One retried attempt of the wrapper: on a retryable exception with
attempts remaining, the wrapper recurses from the state the failed attempt
left behind and prepends its trace. -/
theorem backoff_retry_step (t : Nat) (body : ClientState → Run Json) (st : ClientState)
    (e : ReqError) (st2 : ClientState) (tr : List SentRequest)
    (h : body st = (.error e, st2, tr)) (hr : e.retryable = true) (ht : 0 < t) :
    backoff_retry (t + 1) body st
      = ((backoff_retry t body st2).1, (backoff_retry t body st2).2.1,
          tr ++ (backoff_retry t body st2).2.2) := by
  simp [backoff_retry, h, hr, ht]

/-- A body that deterministically raises the same retryable exception and
leaves the state unchanged is retried until the attempts are exhausted: the
wrapper re-raises the exception and the trace shows one send per allowed
attempt. -/
theorem backoff_retry_exhaust (body : ClientState → Run Json) (st : ClientState)
    (e : ReqError) (tr : List SentRequest)
    (h : body st = (.error e, st, tr)) (hr : e.retryable = true) :
    ∀ n, (backoff_retry (n + 1) body st).1 = .error e ∧
      (backoff_retry (n + 1) body st).2.2.length = (n + 1) * tr.length := by
  intro n
  induction n with
  | zero => simp [backoff_retry, h, hr]
  | succ k ih =>
    rw [backoff_retry_step (k + 1) body st e st tr h hr (Nat.succ_pos k)]
    refine ⟨ih.1, ?_⟩
    simp [List.length_append, ih.2]
    ring

/-- The first element of the retry wrapper's trace is the first element of
the first attempt's trace. -/
theorem backoff_retry_head (t : Nat) (body : ClientState → Run Json) (st : ClientState)
    (r : SentRequest) (rest : List SentRequest)
    (h : (body st).2.2 = r :: rest) :
    ∃ rest2, (backoff_retry (t + 1) body st).2.2 = r :: rest2 := by
  rcases hb : body st with ⟨res, st2, tr⟩
  have htr : tr = r :: rest := by rw [hb] at h; exact h
  cases res with
  | ok v => exact ⟨rest, by simp [backoff_retry, hb, htr]⟩
  | error e =>
    by_cases hc : (e.retryable && decide (0 < t)) = true
    · refine ⟨rest ++ (backoff_retry t body st2).2.2, ?_⟩
      simp [backoff_retry, hb, hc, htr]
    · exact ⟨rest, by simp [backoff_retry, hb, hc, htr]⟩

/-- A GET through the undecorated body always puts the request it sent,
with the headers built from the current state, at the front of the trace. -/
theorem make_request_body_get_head (loginFn : ClientState → Run Unit) (net : Net)
    (url : String) (d : List (String × Option String)) (st : ClientState) :
    ∃ rest, (make_request_body loginFn net "GET" url d st).2.2
      = (⟨"GET", url, requestHeaders st, []⟩ : SentRequest) :: rest := by
  unfold make_request_body
  cases hn : net "GET" url with
  | connFail => exact ⟨[], by simp⟩
  | resp response => exact ⟨(classifyResponse loginFn response st).2.2, by simp⟩

/-- A POST through the undecorated body always puts the request it sent,
with an empty header list, at the front of the trace. -/
theorem make_request_body_post_head (loginFn : ClientState → Run Unit) (net : Net)
    (url : String) (d : List (String × Option String)) (st : ClientState) :
    ∃ rest, (make_request_body loginFn net "POST" url d st).2.2
      = (⟨"POST", url, [], d⟩ : SentRequest) :: rest := by
  unfold make_request_body
  cases hn : net "POST" url with
  | connFail => exact ⟨[], by simp⟩
  | resp response => exact ⟨(classifyResponse loginFn response st).2.2, by simp⟩

/-- A GET answered with status 200 returns the JSON body, leaves the state
unchanged, and sends exactly one request. -/
theorem make_request_body_get_200 (loginFn : ClientState → Run Unit) (net : Net)
    (url : String) (d : List (String × Option String)) (st : ClientState)
    (resp : HttpResponse) (h : net "GET" url = .resp resp) (hs : resp.status_code = 200) :
    make_request_body loginFn net "GET" url d st
      = (.ok resp.body, st, [⟨"GET", url, requestHeaders st, []⟩]) := by
  simp [make_request_body, h, classifyResponse, hs]

/-- The decorated make_request on a 200 GET: one attempt, the body
returned, the state unchanged. -/
theorem make_request_get_200 (net : Net) (fuel : Nat) (url : String)
    (d : List (String × Option String)) (st : ClientState)
    (resp : HttpResponse) (h : net "GET" url = .resp resp) (hs : resp.status_code = 200) :
    make_request net fuel "GET" url d st
      = (.ok resp.body, st, [⟨"GET", url, requestHeaders st, []⟩]) := by
  show backoff_retry (4 + 1) _ st = _
  exact backoff_retry_ok 4 _ st _ _ _
    (make_request_body_get_200 (fun s => login net fuel s) net url d st resp h hs)

/-- A spent cursor ends the pagination loop with the accumulator. -/
theorem get_all_loop_none (net : Net) (mf pf : Nat) (acc : List Json) (st : ClientState) :
    get_all_loop net mf (pf + 1) none acc st = (.ok acc, st, []) := rfl

/-- One pagination step on a 200 page with a truthy body and a list-shaped
value container: the loop extends the accumulator with the page's records
and continues at the page's cursor. -/
theorem get_all_loop_page (net : Net) (mf pf : Nat) (u : String) (hu : u ≠ "")
    (acc : List Json) (st : ClientState) (resp : HttpResponse)
    (h : net "GET" u = .resp resp) (hs : resp.status_code = 200)
    (ht : resp.body.isTruthy = true) (xs : List Json)
    (hv : resp.body.get "value" = some (.arr xs)) :
    get_all_loop net mf (pf + 1) (some (.str u)) acc st
      = ((get_all_loop net mf pf (resp.body.get "@odata.nextLink") (acc ++ xs) st).1,
         (get_all_loop net mf pf (resp.body.get "@odata.nextLink") (acc ++ xs) st).2.1,
         (⟨"GET", u, requestHeaders st, []⟩ : SentRequest) ::
           (get_all_loop net mf pf (resp.body.get "@odata.nextLink") (acc ++ xs) st).2.2) := by
  have htr := str_isTruthy u hu
  simp only [get_all_loop, Json.asUrl, htr, if_true]
  rw [make_request_get_200 net mf u [] st resp h hs]
  simp [ht, hv, extendList]

/-- One pagination step on a 200 page whose body is falsy: the loop stops
at once and returns the accumulator. -/
theorem get_all_loop_falsy (net : Net) (mf pf : Nat) (u : String) (hu : u ≠ "")
    (acc : List Json) (st : ClientState) (resp : HttpResponse)
    (h : net "GET" u = .resp resp) (hs : resp.status_code = 200)
    (hf : resp.body.isTruthy = false) :
    get_all_loop net mf (pf + 1) (some (.str u)) acc st
      = (.ok acc, st, [⟨"GET", u, requestHeaders st, []⟩]) := by
  have htr := str_isTruthy u hu
  simp only [get_all_loop, Json.asUrl, htr, if_true]
  rw [make_request_get_200 net mf u [] st resp h hs]
  simp [hf]

/-- One pagination step on a 200 page with a truthy body that lacks the
value container: list.extend(None) raises TypeError and the loop aborts. -/
theorem get_all_loop_no_value (net : Net) (mf pf : Nat) (u : String) (hu : u ≠ "")
    (acc : List Json) (st : ClientState) (resp : HttpResponse)
    (h : net "GET" u = .resp resp) (hs : resp.status_code = 200)
    (ht : resp.body.isTruthy = true) (hv : resp.body.get "value" = none) :
    get_all_loop net mf (pf + 1) (some (.str u)) acc st
      = (.error .typeError, st, [⟨"GET", u, requestHeaders st, []⟩]) := by
  have htr := str_isTruthy u hu
  simp only [get_all_loop, Json.asUrl, htr, if_true]
  rw [make_request_get_200 net mf u [] st resp h hs]
  simp [ht, hv, extendList]

/-- The decorated make_request is the retry wrapper around the body with
the current login as the 401 handler. -/
theorem make_request_def (net : Net) (fuel : Nat) (method url : String)
    (d : List (String × Option String)) (st : ClientState) :
    backoff_retry MAX_TRIES (make_request_body (fun s => login net fuel s) net method url d) st
      = make_request net fuel method url d st := rfl

/-- A sample configuration and client state used by the concrete runs. -/
def egConfig : Config := ⟨some "cid", some "csec", some "tid", none⟩

/-- A client state holding the bearer token T1. -/
def egState : ClientState := { initState egConfig with access_token := some (.str "T1") }

/-- A network on which every resource request is answered 401 while the
token endpoint hands out the fresh token T2. -/
def net401 : Net := fun method url =>
  if method = "POST" && url = TOKEN_URL (some "tid") then
    .resp ⟨200, "tokenresponse", .obj [("access_token", .str "T2")]⟩
  else .resp ⟨401, "unauthorized-body", .obj []⟩

/-- C1: a 401 response does trigger exactly one synchronous re-login which
updates the shared token (one POST to the token endpoint, token now T2),
but make_request then raises RuntimeError with the response text, an
exception the backoff wrapper does not retry: the GET is sent exactly once
and is never replayed with the fresh token, contradicting the claim that
the failure is surfaced as a retryable condition. -/
theorem C1_401_relogin_not_retried :
    (make_request net401 6 "GET" "https://graph.microsoft.com/v1.0/users" [] egState).1
        = .error (.runtimeError "unauthorized-body")
    ∧ (make_request net401 6 "GET" "https://graph.microsoft.com/v1.0/users" [] egState).2.1.access_token
        = some (.str "T2")
    ∧ ((make_request net401 6 "GET" "https://graph.microsoft.com/v1.0/users" [] egState).2.2.countP
        (fun r => r.method == "POST")) = 1
    ∧ ((make_request net401 6 "GET" "https://graph.microsoft.com/v1.0/users" [] egState).2.2.countP
        (fun r => r.method == "GET")) = 1
    ∧ ReqError.retryable (.runtimeError "unauthorized-body") = false :=
  ⟨rfl, rfl, rfl, rfl, rfl⟩

/-- A network whose every response is a 200 token payload. -/
def netTok : Net := fun _ _ => .resp ⟨200, "ok", .obj [("access_token", .str "T2")]⟩

/-- C2 counterexample: a POST through make_request sends exactly one
request and that request carries no headers at all, in particular no
Authorization header, refuting the claim for the POST method. -/
theorem C2_post_sends_no_authorization :
    (make_request netTok 3 "POST" (TOKEN_URL (some "tid"))
        (login_data (login_prepare egState)) egState).2.2
      = [⟨"POST", TOKEN_URL (some "tid"), [], login_data (login_prepare egState)⟩]
    ∧ lookupHeader
        ((⟨"POST", TOKEN_URL (some "tid"), [], login_data (login_prepare egState)⟩ :
          SentRequest).headers) "Authorization" = none :=
  ⟨rfl, rfl⟩

/-- C2 amended: every GET issued by make_request carries an Authorization
header holding the current bearer token (the first request on the wire has
the headers built from the current state, which always resolve
Authorization to Bearer of the stored token); a POST is sent with no
headers at all; and after login() stores token T, the next GET carries
Bearer T. -/
theorem C2_amended_authorization_header :
    (∀ (net : Net) (fuel : Nat) (url : String) (d : List (String × Option String))
        (st : ClientState), ∃ rest,
        (make_request net fuel "GET" url d st).2.2
            = (⟨"GET", url, requestHeaders st, []⟩ : SentRequest) :: rest
        ∧ lookupHeader (requestHeaders st) "Authorization"
            = some ("Bearer " ++ tokenText st.access_token))
    ∧ (∀ (net : Net) (fuel : Nat) (url : String) (d : List (String × Option String))
        (st : ClientState), ∃ rest,
        (make_request net fuel "POST" url d st).2.2
            = (⟨"POST", url, [], d⟩ : SentRequest) :: rest)
    ∧ (∀ (net : Net) (fuel fuel2 : Nat) (url : String) (d : List (String × Option String))
        (st st2 : ClientState) (T : String),
        (login net fuel st).2.1 = st2 → st2.access_token = some (.str T) → ∃ rest,
        (make_request net fuel2 "GET" url d st2).2.2
            = (⟨"GET", url, requestHeaders st2, []⟩ : SentRequest) :: rest
        ∧ lookupHeader (requestHeaders st2) "Authorization" = some ("Bearer " ++ T)) := by
  have hget : ∀ (net : Net) (fuel : Nat) (url : String) (d : List (String × Option String))
      (st : ClientState), ∃ rest,
      (make_request net fuel "GET" url d st).2.2
          = (⟨"GET", url, requestHeaders st, []⟩ : SentRequest) :: rest := by
    intro net fuel url d st
    obtain ⟨rest, hrest⟩ :=
      make_request_body_get_head (fun s => login net fuel s) net url d st
    obtain ⟨rest2, hrest2⟩ := backoff_retry_head 4
      (make_request_body (fun s => login net fuel s) net "GET" url d) st _ rest hrest
    exact ⟨rest2, hrest2⟩
  refine ⟨?_, ?_, ?_⟩
  · intro net fuel url d st
    obtain ⟨rest, hrest⟩ := hget net fuel url d st
    exact ⟨rest, hrest, lookupHeader_auth st⟩
  · intro net fuel url d st
    obtain ⟨rest, hrest⟩ :=
      make_request_body_post_head (fun s => login net fuel s) net url d st
    obtain ⟨rest2, hrest2⟩ := backoff_retry_head 4
      (make_request_body (fun s => login net fuel s) net "POST" url d) st _ rest hrest
    exact ⟨rest2, hrest2⟩
  · intro net fuel fuel2 url d st st2 T hlogin htok
    obtain ⟨rest, hrest⟩ := hget net fuel2 url d st2
    refine ⟨rest, hrest, ?_⟩
    rw [lookupHeader_auth st2, htok]
    rfl

/-- C2 amended, witnessed at a concrete run: after login against a network
returning token T2, the next GET's first sent request carries the header
Authorization, Bearer T2. -/
theorem C2_amended_authorization_header_witness :
    ∃ rest,
      (make_request netTok 1 "GET" "https://graph.microsoft.com/v1.0/users" []
          ((login netTok 2 egState).2.1)).2.2
        = (⟨"GET", "https://graph.microsoft.com/v1.0/users",
            requestHeaders ((login netTok 2 egState).2.1), []⟩ : SentRequest) :: rest
      ∧ lookupHeader (requestHeaders ((login netTok 2 egState).2.1)) "Authorization"
          = some ("Bearer " ++ "T2") :=
  C2_amended_authorization_header.2.2 netTok 2 1 "https://graph.microsoft.com/v1.0/users" []
    egState ((login netTok 2 egState).2.1) "T2" rfl rfl

/-- C3: over any network serving page one at the initial users URL with
cursor U2 and records a, b, and page two at U2 with no cursor and record
c, get_all_resources returns the concatenation a, b, c: record order is
page fetch order, and within each page the server order is preserved. -/
theorem C3_pagination_concatenation (net : Net) (fuel : Nat) (st : ClientState)
    (a b c : Json) (u2 t1 t2 : String) (hu2 : u2 ≠ "")
    (h1 : net "GET" (build_url BASE_GRAPH_URL "v1.0" "users" []) = .resp
      ⟨200, t1, .obj [("@odata.nextLink", .str u2), ("value", .arr [a, b])]⟩)
    (h2 : net "GET" u2 = .resp ⟨200, t2, .obj [("value", .arr [c])]⟩) :
    (get_all_resources net fuel 3 "v1.0" "users" none none none st).1 = .ok [a, b, c] := by
  have hurl : build_url BASE_GRAPH_URL "v1.0" "users" []
      = "https://graph.microsoft.com/v1.0/users" := rfl
  rw [hurl] at h1
  have hne : ("https://graph.microsoft.com/v1.0/users" : String) ≠ "" := by decide
  unfold get_all_resources
  simp only [optTruthy, Bool.false_eq_true, if_false, List.append_nil, List.nil_append]
  rw [hurl]
  have e3 : (3 : Nat) = 2 + 1 := rfl
  rw [e3, get_all_loop_page net fuel 2 _ hne [] st _ h1 rfl (by simp [Json.isTruthy]) [a, b]
    (by simp [Json.get])]
  have hnl : (Json.obj [("@odata.nextLink", Json.str u2), ("value", Json.arr [a, b])]).get
      "@odata.nextLink" = some (.str u2) := by simp [Json.get]
  simp only [hnl, List.nil_append]
  have e2 : (2 : Nat) = 1 + 1 := rfl
  rw [e2, get_all_loop_page net fuel 1 _ hu2 [a, b] st _ h2 rfl (by simp [Json.isTruthy]) [c]
    (by simp [Json.get])]
  have hnl2 : (Json.obj [("value", Json.arr [c])]).get "@odata.nextLink" = none := by
    simp [Json.get]
  simp only [hnl2]
  have e1 : (1 : Nat) = 0 + 1 := rfl
  rw [e1, get_all_loop_none]
  simp

/-- A two-page network: the initial users URL serves records a, b and the
cursor, the cursor URL serves record c and no cursor. -/
def netPages : Net := fun _ url =>
  if url = "https://graph.microsoft.com/v1.0/users" then
    .resp ⟨200, "p1", .obj [("@odata.nextLink", .str "https://next.example/p2"),
      ("value", .arr [.str "a", .str "b"])]⟩
  else if url = "https://next.example/p2" then
    .resp ⟨200, "p2", .obj [("value", .arr [.str "c"])]⟩
  else .resp ⟨404, "nf", .null⟩

/-- C3 witnessed at a concrete two-page network. -/
theorem C3_pagination_concatenation_witness :
    (get_all_resources netPages 1 3 "v1.0" "users" none none none egState).1
      = .ok [.str "a", .str "b", .str "c"] :=
  C3_pagination_concatenation netPages 1 egState (.str "a") (.str "b") (.str "c")
    "https://next.example/p2" "p1" "p2" (by decide) rfl rfl

/-- A GET answered with status 500 or above raises the server error and
leaves the state unchanged. -/
theorem make_request_body_get_5xx (loginFn : ClientState → Run Unit) (net : Net)
    (url : String) (d : List (String × Option String)) (st : ClientState)
    (resp : HttpResponse) (h : net "GET" url = .resp resp) (hs : 500 ≤ resp.status_code) :
    make_request_body loginFn net "GET" url d st
      = (.error .server5xx, st, [⟨"GET", url, requestHeaders st, []⟩]) := by
  have h401 : resp.status_code ≠ 401 := by omega
  have h429 : resp.status_code ≠ 429 := by omega
  simp [make_request_body, h, classifyResponse, h401, h429, hs]

/-- A GET answered with status 429 raises the rate-limit error and leaves
the state unchanged. -/
theorem make_request_body_get_429 (loginFn : ClientState → Run Unit) (net : Net)
    (url : String) (d : List (String × Option String)) (st : ClientState)
    (resp : HttpResponse) (h : net "GET" url = .resp resp) (hs : resp.status_code = 429) :
    make_request_body loginFn net "GET" url d st
      = (.error .rateLimit, st, [⟨"GET", url, requestHeaders st, []⟩]) := by
  simp [make_request_body, h, classifyResponse, hs]

/-- A GET answered with a status that is not 401, not 429, below 500 and
outside the success list raises RuntimeError carrying the response text. -/
theorem make_request_body_get_other (loginFn : ClientState → Run Unit) (net : Net)
    (url : String) (d : List (String × Option String)) (st : ClientState)
    (resp : HttpResponse) (h : net "GET" url = .resp resp)
    (h401 : resp.status_code ≠ 401) (h429 : resp.status_code ≠ 429)
    (h5 : resp.status_code < 500) (hni : resp.status_code ∉ ([200, 201, 202] : List Nat)) :
    make_request_body loginFn net "GET" url d st
      = (.error (.runtimeError resp.text), st, [⟨"GET", url, requestHeaders st, []⟩]) := by
  have h5' : ¬ 500 ≤ resp.status_code := by omega
  simp [make_request_body, h, classifyResponse, h401, h429, h5', hni]

/-- A GET that fails at the connection level raises ConnectionError and
leaves the state unchanged. -/
theorem make_request_body_get_conn (loginFn : ClientState → Run Unit) (net : Net)
    (url : String) (d : List (String × Option String)) (st : ClientState)
    (h : net "GET" url = .connFail) :
    make_request_body loginFn net "GET" url d st
      = (.error .connectionError, st, [⟨"GET", url, requestHeaders st, []⟩]) := by
  simp [make_request_body, h]

/-- A POST that fails at the connection level raises ConnectionError and
leaves the state unchanged. -/
theorem make_request_body_post_conn (loginFn : ClientState → Run Unit) (net : Net)
    (url : String) (d : List (String × Option String)) (st : ClientState)
    (h : net "POST" url = .connFail) :
    make_request_body loginFn net "POST" url d st
      = (.error .connectionError, st, [⟨"POST", url, [], d⟩]) := by
  simp [make_request_body, h]

/-- A network that always answers 418 with a teapot body. -/
def net418 : Net := fun _ _ => .resp ⟨418, "teapot", .null⟩

/-- A network that always fails at the connection level. -/
def netDown : Net := fun _ _ => .connFail

/-- A network that always answers 500. -/
def net500 : Net := fun _ _ => .resp ⟨500, "boom", .null⟩

/-- C4 counterexample: a connection-level failure is not retried.  The
requests session raises requests.exceptions.ConnectionError, which is not
an instance of the builtin ConnectionError named in the backoff tuple, so
on a persistently failing connection make_request sends the request
exactly once and the error escapes immediately, refuting the claim that
connection-level failures are retried up to 5 total attempts. -/
theorem C4_connection_failure_not_retried :
    (make_request netDown 1 "GET" "https://graph.microsoft.com/v1.0/users" [] egState).1
        = .error .connectionError
    ∧ (make_request netDown 1 "GET" "https://graph.microsoft.com/v1.0/users" [] egState).2.2.length
        = 1
    ∧ ReqError.retryable .connectionError = false
    ∧ ReqError.retryable .builtinConnectionError = true :=
  ⟨rfl, rfl, rfl, rfl⟩

/-- C4 amended: the retry policy actually in force.  Retryable are exactly
the server error, the rate-limit error and the builtin ConnectionError the
decorator's tuple names — a class the session never raises; the attempt
cap is 5 total attempts; the backoff.expo delay with the decorator's
factor 2 and default base 2 doubles on every attempt; a GET persistently
answered 500-or-above or 429 is sent exactly 5 times and then the
classified error is re-raised; a GET failing at the connection level
raises the requests ConnectionError, which escapes immediately after
exactly one attempt; a GET answered with any other 4xx status (not 401,
not 429) escapes immediately as RuntimeError after exactly one attempt. -/
theorem C4_amended_retry_policy :
    (∀ e : ReqError, e.retryable = true
        ↔ e = .server5xx ∨ e = .builtinConnectionError ∨ e = .rateLimit)
    ∧ MAX_TRIES = 5
    ∧ (∀ n, backoff_expo 2 2 (n + 1) = 2 * backoff_expo 2 2 n)
    ∧ (∀ (net : Net) (fuel : Nat) (url : String) (d : List (String × Option String))
        (st : ClientState) (resp : HttpResponse),
        net "GET" url = .resp resp → 500 ≤ resp.status_code →
        (make_request net fuel "GET" url d st).1 = .error .server5xx
        ∧ (make_request net fuel "GET" url d st).2.2.length = 5)
    ∧ (∀ (net : Net) (fuel : Nat) (url : String) (d : List (String × Option String))
        (st : ClientState) (resp : HttpResponse),
        net "GET" url = .resp resp → resp.status_code = 429 →
        (make_request net fuel "GET" url d st).1 = .error .rateLimit
        ∧ (make_request net fuel "GET" url d st).2.2.length = 5)
    ∧ (∀ (net : Net) (fuel : Nat) (url : String) (d : List (String × Option String))
        (st : ClientState),
        net "GET" url = .connFail →
        (make_request net fuel "GET" url d st).1 = .error .connectionError
        ∧ (make_request net fuel "GET" url d st).2.2.length = 1)
    ∧ (∀ (net : Net) (fuel : Nat) (url : String) (d : List (String × Option String))
        (st : ClientState) (resp : HttpResponse),
        net "GET" url = .resp resp →
        400 ≤ resp.status_code → resp.status_code < 500 →
        resp.status_code ≠ 401 → resp.status_code ≠ 429 →
        (make_request net fuel "GET" url d st).1 = .error (.runtimeError resp.text)
        ∧ (make_request net fuel "GET" url d st).2.2.length = 1) := by
  refine ⟨?_, rfl, ?_, ?_, ?_, ?_, ?_⟩
  · intro e
    cases e <;> simp [ReqError.retryable]
  · intro n
    simp [backoff_expo, pow_succ]
    ring
  · intro net fuel url d st resp h hs
    have hb := make_request_body_get_5xx (fun s => login net fuel s) net url d st resp h hs
    have he := backoff_retry_exhaust _ st .server5xx _ hb rfl 4
    exact ⟨he.1, by simpa using he.2⟩
  · intro net fuel url d st resp h hs
    have hb := make_request_body_get_429 (fun s => login net fuel s) net url d st resp h hs
    have he := backoff_retry_exhaust _ st .rateLimit _ hb rfl 4
    exact ⟨he.1, by simpa using he.2⟩
  · intro net fuel url d st h
    have hb := make_request_body_get_conn (fun s => login net fuel s) net url d st h
    have hf := backoff_retry_fatal 4 _ st _ _ _ hb rfl
    constructor
    · show (backoff_retry (4 + 1) _ st).1 = _
      rw [hf]
    · show (backoff_retry (4 + 1) _ st).2.2.length = 1
      rw [hf]
      rfl
  · intro net fuel url d st resp h h400 h500 h401 h429
    have hni : resp.status_code ∉ ([200, 201, 202] : List Nat) := by
      intro hmem
      simp [List.mem_cons] at hmem
      omega
    have hb := make_request_body_get_other (fun s => login net fuel s) net url d st resp h
      h401 h429 h500 hni
    have hf := backoff_retry_fatal 4 _ st _ _ _ hb rfl
    constructor
    · show (backoff_retry (4 + 1) _ st).1 = _
      rw [hf]
    · show (backoff_retry (4 + 1) _ st).2.2.length = 1
      rw [hf]
      rfl

/-- C4 amended, witnessed at concrete networks: a persistent 500 is
attempted 5 times and re-raised as the server error; a permanent
connection failure escapes after exactly one attempt; a 418 escapes as
RuntimeError carrying the body after exactly one attempt. -/
theorem C4_amended_retry_policy_witness :
    ((make_request net500 1 "GET" "https://graph.microsoft.com/v1.0/users" [] egState).1
        = .error .server5xx
      ∧ (make_request net500 1 "GET" "https://graph.microsoft.com/v1.0/users" [] egState).2.2.length
        = 5)
    ∧ ((make_request netDown 1 "GET" "https://graph.microsoft.com/v1.0/users" [] egState).1
        = .error .connectionError
      ∧ (make_request netDown 1 "GET" "https://graph.microsoft.com/v1.0/users" [] egState).2.2.length
        = 1)
    ∧ ((make_request net418 1 "GET" "https://graph.microsoft.com/v1.0/users" [] egState).1
        = .error (.runtimeError "teapot")
      ∧ (make_request net418 1 "GET" "https://graph.microsoft.com/v1.0/users" [] egState).2.2.length
        = 1) :=
  ⟨C4_amended_retry_policy.2.2.2.1 net500 1 "https://graph.microsoft.com/v1.0/users" [] egState
     ⟨500, "boom", .null⟩ rfl (by decide),
   C4_amended_retry_policy.2.2.2.2.2.1 netDown 1 "https://graph.microsoft.com/v1.0/users" []
     egState rfl,
   C4_amended_retry_policy.2.2.2.2.2.2 net418 1 "https://graph.microsoft.com/v1.0/users" []
     egState ⟨418, "teapot", .null⟩ rfl (by decide) (by decide) (by decide) (by decide)⟩

/-- A one-page network whose page is a non-empty dict that has a cursor
but lacks the value container. -/
def netNoValue : Net := fun _ _ =>
  .resp ⟨200, "", .obj [("@odata.nextLink", .str "https://next.example/p2")]⟩

/-- C5 counterexample: on a non-empty page that lacks the value container,
get_all_resources does not default the page to no records and continue: it
raises TypeError (response.extend(None)) and aborts the fetch. -/
theorem C5_missing_value_raises_TypeError :
    (get_all_resources netNoValue 3 2 "v1.0" "users" none none none egState).1
      = .error .typeError := rfl

/-- C5 amended: a non-empty page lacking the value container makes
get_all_resources raise TypeError (list.extend of None) instead of
contributing no records; an absent odata nextLink does default to the
terminal cursor and ends the loop normally with the page's records. -/
theorem C5_amended_missing_value :
    (∀ (net : Net) (fuel : Nat) (st : ClientState) (resp : HttpResponse),
        net "GET" (build_url BASE_GRAPH_URL "v1.0" "users" []) = .resp resp →
        resp.status_code = 200 → resp.body.isTruthy = true →
        resp.body.get "value" = none →
        (get_all_resources net fuel 2 "v1.0" "users" none none none st).1
          = .error .typeError)
    ∧ (∀ (net : Net) (fuel : Nat) (st : ClientState) (resp : HttpResponse) (xs : List Json),
        net "GET" (build_url BASE_GRAPH_URL "v1.0" "users" []) = .resp resp →
        resp.status_code = 200 → resp.body.isTruthy = true →
        resp.body.get "value" = some (.arr xs) →
        resp.body.get "@odata.nextLink" = none →
        (get_all_resources net fuel 2 "v1.0" "users" none none none st).1 = .ok xs) := by
  have hurl : build_url BASE_GRAPH_URL "v1.0" "users" []
      = "https://graph.microsoft.com/v1.0/users" := rfl
  have hne : ("https://graph.microsoft.com/v1.0/users" : String) ≠ "" := by decide
  constructor
  · intro net fuel st resp h hs ht hv
    rw [hurl] at h
    unfold get_all_resources
    simp only [optTruthy, Bool.false_eq_true, if_false, List.append_nil, List.nil_append]
    rw [hurl]
    have e2 : (2 : Nat) = 1 + 1 := rfl
    rw [e2, get_all_loop_no_value net fuel 1 _ hne [] st resp h hs ht hv]
  · intro net fuel st resp xs h hs ht hv hnl
    rw [hurl] at h
    unfold get_all_resources
    simp only [optTruthy, Bool.false_eq_true, if_false, List.append_nil, List.nil_append]
    rw [hurl]
    have e2 : (2 : Nat) = 1 + 1 := rfl
    rw [e2, get_all_loop_page net fuel 1 _ hne [] st resp h hs ht xs hv, hnl]
    have e1 : (1 : Nat) = 0 + 1 := rfl
    rw [e1, get_all_loop_none]
    simp

/-- A one-page network: records a, b and no cursor. -/
def netOnePage : Net := fun _ _ =>
  .resp ⟨200, "", .obj [("value", .arr [.str "a", .str "b"])]⟩

/-- C5 amended, witnessed: a single page with records and no cursor ends
the fetch normally with exactly those records. -/
theorem C5_amended_missing_value_witness :
    (get_all_resources netOnePage 3 2 "v1.0" "users" none none none egState).1
      = .ok [.str "a", .str "b"] :=
  C5_amended_missing_value.2 netOnePage 3 egState
    ⟨200, "", .obj [("value", .arr [.str "a", .str "b"])]⟩ [.str "a", .str "b"]
    rfl rfl rfl rfl rfl

/-- A token endpoint that answers 200 with a JSON body holding no
access_token field. -/
def netEmptyTok : Net := fun _ _ => .resp ⟨200, "", .obj [("x", .null)]⟩

/-- C6 counterexample: when the token endpoint returns a 2xx response with
no usable token, login does not propagate any auth failure: it returns
normally and silently stores None as the shared access token (the refresh
timer is armed, as always). -/
theorem C6_no_token_is_silent :
    (login netEmptyTok 2 egState).1 = .ok ()
    ∧ (login netEmptyTok 2 egState).2.1.access_token = none
    ∧ (login netEmptyTok 2 egState).2.1.login_timer = some TOKEN_EXPIRATION_PERIOD :=
  ⟨rfl, rfl, rfl⟩

/-- C6 amended: every call to login, whether the token request succeeds or
raises, re-arms the refresh timer for the same fixed delay; an exception
raised by the token request (for instance the requests ConnectionError of
an unreachable token endpoint, which escapes the retry wrapper at once
since the wrapper's tuple names only the builtin class) propagates to the
caller of login; but a 2xx token response lacking a usable access_token
field does not raise: login returns normally and stores the missing field
as None. -/
theorem C6_amended_login :
    (∀ (net : Net) (fuel : Nat) (st : ClientState),
        (login net (fuel + 1) st).2.1.login_timer = some TOKEN_EXPIRATION_PERIOD)
    ∧ (∀ (net : Net) (fuel : Nat) (st : ClientState) (e : ReqError),
        (make_request net fuel "POST" (TOKEN_URL (login_prepare st).tenant_id)
            (login_data (login_prepare st)) (login_prepare st)).1 = .error e →
        (login net (fuel + 1) st).1 = .error e)
    ∧ (∀ (net : Net) (fuel : Nat) (st : ClientState),
        net "POST" (TOKEN_URL (login_prepare st).tenant_id) = .connFail →
        (login net (fuel + 1) st).1 = .error .connectionError)
    ∧ (∀ (net : Net) (fuel : Nat) (st : ClientState) (result : Json)
        (st2 : ClientState) (tr : List SentRequest),
        make_request net fuel "POST" (TOKEN_URL (login_prepare st).tenant_id)
            (login_data (login_prepare st)) (login_prepare st) = (.ok result, st2, tr) →
        (login net (fuel + 1) st).1 = .ok ()
        ∧ (login net (fuel + 1) st).2.1.access_token = result.get "access_token") := by
  have hprop : ∀ (net : Net) (fuel : Nat) (st : ClientState) (e : ReqError),
      (make_request net fuel "POST" (TOKEN_URL (login_prepare st).tenant_id)
          (login_data (login_prepare st)) (login_prepare st)).1 = .error e →
      (login net (fuel + 1) st).1 = .error e := by
    intro net fuel st e he
    simp only [login, make_request_def]
    rcases hmr : make_request net fuel "POST" (TOKEN_URL (login_prepare st).tenant_id)
        (login_data (login_prepare st)) (login_prepare st) with ⟨res, st2, tr⟩
    rw [hmr] at he
    simp at he
    rw [he]
  refine ⟨?_, hprop, ?_, ?_⟩
  · intro net fuel st
    simp only [login, make_request_def]
    rcases make_request net fuel "POST" (TOKEN_URL (login_prepare st).tenant_id)
        (login_data (login_prepare st)) (login_prepare st) with ⟨res, st2, tr⟩
    cases res <;> rfl
  · intro net fuel st hconn
    refine hprop net fuel st .connectionError ?_
    have hb := make_request_body_post_conn (fun s => login net fuel s) net
      (TOKEN_URL (login_prepare st).tenant_id) (login_data (login_prepare st))
      (login_prepare st) hconn
    have hf := backoff_retry_fatal 4 _ (login_prepare st) _ _ _ hb rfl
    show (backoff_retry (4 + 1) _ (login_prepare st)).1 = _
    rw [hf]
  · intro net fuel st result st2 tr hmr
    constructor
    · simp only [login, make_request_def]
      rw [hmr]
    · simp only [login, make_request_def]
      rw [hmr]

/-- C6 amended, witnessed: against a network whose every request fails at
the connection level, login re-raises the connection error to its caller
(and by the first part the timer is still armed). -/
theorem C6_amended_login_witness :
    (login netDown 1 egState).1 = .error .connectionError
    ∧ (login netDown 1 egState).2.1.login_timer = some TOKEN_EXPIRATION_PERIOD :=
  ⟨C6_amended_login.2.2.1 netDown 0 egState rfl,
   C6_amended_login.1 netDown 0 egState⟩

/-- A method that is neither GET nor POST raises the unsupported-method
exception with nothing sent on the wire and the state untouched. -/
theorem make_request_body_unsupported (loginFn : ClientState → Run Unit) (net : Net)
    (method url : String) (d : List (String × Option String)) (st : ClientState)
    (h1 : method ≠ "GET") (h2 : method ≠ "POST") :
    make_request_body loginFn net method url d st = (.error .unsupportedMethod, st, []) := by
  simp [make_request_body, h1, h2]

/-- A POST answered with a status that is not 401, not 429, below 500 and
outside the success list raises RuntimeError carrying the response text. -/
theorem make_request_body_post_other (loginFn : ClientState → Run Unit) (net : Net)
    (url : String) (d : List (String × Option String)) (st : ClientState)
    (resp : HttpResponse) (h : net "POST" url = .resp resp)
    (h401 : resp.status_code ≠ 401) (h429 : resp.status_code ≠ 429)
    (h5 : resp.status_code < 500) (hni : resp.status_code ∉ ([200, 201, 202] : List Nat)) :
    make_request_body loginFn net "POST" url d st
      = (.error (.runtimeError resp.text), st, [⟨"POST", url, [], d⟩]) := by
  have h5' : ¬ 500 ≤ resp.status_code := by omega
  simp [make_request_body, h, classifyResponse, h401, h429, h5', hni]

/-- C7: the two unclassified failure cases are immediate, fatal and
unretried.  A method other than GET and POST raises before any network
request is sent (empty trace) and escapes the retry wrapper at once; a
response status outside the success list 200, 201, 202 that is not
classified as 401, 429 or 500-and-above raises RuntimeError carrying the
raw response text after exactly one attempt, on GET and on POST alike. -/
theorem C7_unclassified_cases_fatal :
    (∀ (net : Net) (fuel : Nat) (method url : String) (d : List (String × Option String))
        (st : ClientState), method ≠ "GET" → method ≠ "POST" →
        make_request net fuel method url d st = (.error .unsupportedMethod, st, []))
    ∧ (∀ (net : Net) (fuel : Nat) (url : String) (d : List (String × Option String))
        (st : ClientState) (resp : HttpResponse),
        net "GET" url = .resp resp →
        resp.status_code ∉ ([200, 201, 202] : List Nat) →
        resp.status_code ≠ 401 → resp.status_code ≠ 429 → resp.status_code < 500 →
        make_request net fuel "GET" url d st
          = (.error (.runtimeError resp.text), st, [⟨"GET", url, requestHeaders st, []⟩]))
    ∧ (∀ (net : Net) (fuel : Nat) (url : String) (d : List (String × Option String))
        (st : ClientState) (resp : HttpResponse),
        net "POST" url = .resp resp →
        resp.status_code ∉ ([200, 201, 202] : List Nat) →
        resp.status_code ≠ 401 → resp.status_code ≠ 429 → resp.status_code < 500 →
        make_request net fuel "POST" url d st
          = (.error (.runtimeError resp.text), st, [⟨"POST", url, [], d⟩])) := by
  refine ⟨?_, ?_, ?_⟩
  · intro net fuel method url d st h1 h2
    have hb := make_request_body_unsupported (fun s => login net fuel s) net method url d st h1 h2
    exact backoff_retry_fatal 4 _ st _ _ _ hb rfl
  · intro net fuel url d st resp h hni h401 h429 h5
    have hb := make_request_body_get_other (fun s => login net fuel s) net url d st resp h
      h401 h429 h5 hni
    exact backoff_retry_fatal 4 _ st _ _ _ hb rfl
  · intro net fuel url d st resp h hni h401 h429 h5
    have hb := make_request_body_post_other (fun s => login net fuel s) net url d st resp h
      h401 h429 h5 hni
    exact backoff_retry_fatal 4 _ st _ _ _ hb rfl

/-- C7 witnessed: a DELETE fails with the unsupported-method error and an
empty trace (no network call, no retry); a 418 GET fails with RuntimeError
carrying the body text after the single attempt. -/
theorem C7_unclassified_cases_fatal_witness :
    make_request net418 1 "DELETE" "https://graph.microsoft.com/v1.0/users" [] egState
        = (.error .unsupportedMethod, egState, [])
    ∧ make_request net418 1 "GET" "https://graph.microsoft.com/v1.0/users" [] egState
        = (.error (.runtimeError "teapot"), egState,
           [⟨"GET", "https://graph.microsoft.com/v1.0/users", requestHeaders egState, []⟩]) :=
  ⟨C7_unclassified_cases_fatal.1 net418 1 "DELETE" "https://graph.microsoft.com/v1.0/users" []
     egState (by decide) (by decide),
   C7_unclassified_cases_fatal.2.1 net418 1 "https://graph.microsoft.com/v1.0/users" [] egState
     ⟨418, "teapot", .null⟩ rfl (by decide) (by decide) (by decide) (by decide)⟩

/-- C8: a falsy page body short-circuits the pagination loop.  Page one
carries records a, b and a cursor; the page at the cursor is answered 200
with a falsy body; get_all_resources stops at once and returns exactly the
records accumulated so far, even though the cursor existed. -/
theorem C8_falsy_body_short_circuits (net : Net) (fuel : Nat) (st : ClientState)
    (a b : Json) (u2 t1 : String) (hu2 : u2 ≠ "") (resp2 : HttpResponse)
    (h1 : net "GET" (build_url BASE_GRAPH_URL "v1.0" "users" []) = .resp
      ⟨200, t1, .obj [("@odata.nextLink", .str u2), ("value", .arr [a, b])]⟩)
    (h2 : net "GET" u2 = .resp resp2) (hs2 : resp2.status_code = 200)
    (hf : resp2.body.isTruthy = false) :
    (get_all_resources net fuel 3 "v1.0" "users" none none none st).1 = .ok [a, b] := by
  have hurl : build_url BASE_GRAPH_URL "v1.0" "users" []
      = "https://graph.microsoft.com/v1.0/users" := rfl
  rw [hurl] at h1
  have hne : ("https://graph.microsoft.com/v1.0/users" : String) ≠ "" := by decide
  unfold get_all_resources
  simp only [optTruthy, Bool.false_eq_true, if_false, List.append_nil, List.nil_append]
  rw [hurl]
  have e3 : (3 : Nat) = 2 + 1 := rfl
  rw [e3, get_all_loop_page net fuel 2 _ hne [] st _ h1 rfl (by simp [Json.isTruthy]) [a, b]
    (by simp [Json.get])]
  have hnl : (Json.obj [("@odata.nextLink", Json.str u2), ("value", Json.arr [a, b])]).get
      "@odata.nextLink" = some (.str u2) := by simp [Json.get]
  simp only [hnl, List.nil_append]
  have e2 : (2 : Nat) = 1 + 1 := rfl
  rw [e2, get_all_loop_falsy net fuel 1 _ hu2 [a, b] st resp2 h2 hs2 hf]

/-- A network serving a first page with a cursor and an empty JSON dict at
the cursor. -/
def netEmptySecond : Net := fun _ url =>
  if url = "https://graph.microsoft.com/v1.0/users" then
    .resp ⟨200, "p1", .obj [("@odata.nextLink", .str "https://next.example/p2"),
      ("value", .arr [.str "a", .str "b"])]⟩
  else .resp ⟨200, "empty", .obj []⟩

/-- C8 witnessed: the empty dict served at the cursor stops the loop with
just the first page's records. -/
theorem C8_falsy_body_short_circuits_witness :
    (get_all_resources netEmptySecond 1 3 "v1.0" "users" none none none egState).1
      = .ok [.str "a", .str "b"] :=
  C8_falsy_body_short_circuits netEmptySecond 1 egState (.str "a") (.str "b")
    "https://next.example/p2" "p1" (by decide) ⟨200, "empty", .obj []⟩ rfl rfl rfl rfl

/-- C9: build_url is a pure deterministic function (equal inputs yield the
same output string); on the documented example it produces exactly the
expected absolute URL with the dollar sign percent-encoded; and urlencode
keeps the parameter mapping's iteration order and encodes spaces. -/
theorem C9_build_url_deterministic_example :
    (∀ (b1 v1 p1 : String) (a1 : List (String × String)) (b2 v2 p2 : String)
        (a2 : List (String × String)),
        b1 = b2 → v1 = v2 → p1 = p2 → a1 = a2 →
        build_url b1 v1 p1 a1 = build_url b2 v2 p2 a2)
    ∧ build_url "https://graph.microsoft.com" "v1.0" "users" [("$top", "10")]
        = "https://graph.microsoft.com/v1.0/users?%24top=10"
    ∧ urlencode [("$top", "10"), ("$filter", "x eq 1")] = "%24top=10&%24filter=x+eq+1" := by
  refine ⟨?_, by decide, by decide⟩
  intro b1 v1 p1 a1 b2 v2 p2 a2 hb hv hp ha
  rw [hb, hv, hp, ha]

/-- C9 witnessed: determinism applied at the documented example inputs. -/
theorem C9_build_url_deterministic_example_witness :
    build_url "https://graph.microsoft.com" "v1.0" "users" [("$top", "10")]
      = build_url "https://graph.microsoft.com" "v1.0" "users" [("$top", "10")] :=
  C9_build_url_deterministic_example.1 "https://graph.microsoft.com" "v1.0" "users"
    [("$top", "10")] "https://graph.microsoft.com" "v1.0" "users" [("$top", "10")]
    rfl rfl rfl rfl

/-- C10 counterexample: two base URLs that agree on scheme and network
host need not produce the same output: a fragment on the base URL is kept
by build_url (only the path and query slots of the parse are overwritten),
so the outputs differ. -/
theorem C10_fragment_not_discarded :
    (urlparse "https://graph.microsoft.com").scheme
        = (urlparse "https://graph.microsoft.com#frag").scheme
    ∧ (urlparse "https://graph.microsoft.com").netloc
        = (urlparse "https://graph.microsoft.com#frag").netloc
    ∧ build_url "https://graph.microsoft.com" "v1.0" "users" [("$top", "10")]
        ≠ build_url "https://graph.microsoft.com#frag" "v1.0" "users" [("$top", "10")]
    ∧ build_url "https://graph.microsoft.com#frag" "v1.0" "users" [("$top", "10")]
        = "https://graph.microsoft.com/v1.0/users?%24top=10#frag" := by
  exact ⟨rfl, rfl, by decide, by decide⟩

/-- C10 amended: build_url discards only the path and query of the base
URL; two bases that agree on scheme, network host, params segment and
fragment produce the same output for the same version, path and
parameters. -/
theorem C10_amended_base_congruence (b1 b2 v p : String) (a : List (String × String))
    (hs : (urlparse b1).scheme = (urlparse b2).scheme)
    (hn : (urlparse b1).netloc = (urlparse b2).netloc)
    (hp : (urlparse b1).params = (urlparse b2).params)
    (hf : (urlparse b1).fragment = (urlparse b2).fragment) :
    build_url b1 v p a = build_url b2 v p a := by
  unfold build_url
  rcases h1 : urlparse b1 with ⟨s1, n1, p1, pr1, q1, f1⟩
  rcases h2 : urlparse b2 with ⟨s2, n2, p2, pr2, q2, f2⟩
  rw [h1, h2] at hs hn hp hf
  simp only at hs hn hp hf
  rw [hs, hn, hp, hf]

/-- C10 amended, witnessed: a base with a path and query produces the same
output as the bare host base, because both slots are discarded. -/
theorem C10_amended_base_congruence_witness :
    build_url "https://graph.microsoft.com/old/path?x=1" "v1.0" "users" [("$top", "10")]
      = build_url "https://graph.microsoft.com" "v1.0" "users" [("$top", "10")] :=
  C10_amended_base_congruence "https://graph.microsoft.com/old/path?x=1"
    "https://graph.microsoft.com" "v1.0" "users" [("$top", "10")] rfl rfl rfl rfl

end TapMsTeams
